import Mathlib

/-!
Shallow embedding of the create-js-backend CLI generator
(src/unnamed/part_000).  The CLI copies a boilerplate tree, prompts for
six package.json fields, shallow-merges them into the copied manifest
with Object.assign, optionally runs npm install, runs git init, and
prints a summary.  We model a single run as a pure function from an
environment (prompt answers plus the success/failure outcome of each
external operation) to a result recording the outcome, the process exit
code, the side effects attempted, and the user-facing messages printed.
-/

namespace CreateJsBackend

/-- A JSON value as stored in package.json. -/
inductive JVal where
  | str : String → JVal
  | num : Int → JVal
  | boolean : Bool → JVal
  | null : JVal
  | arr : List JVal → JVal
  | obj : List (String × JVal) → JVal

/-- A JSON object (the manifest) as an ordered association list,
mirroring a JavaScript object with string keys. -/
abbrev Manifest := List (String × JVal)

/-- Property lookup on a JavaScript object: first entry with the key. -/
def lookupKey : Manifest → String → Option JVal
  | [], _ => none
  | (k, v) :: rest, key => if k = key then some v else lookupKey rest key

/-- Property assignment on a JavaScript object: replace the value in
place if the key exists, otherwise append the new entry. -/
def setKey : Manifest → String → JVal → Manifest
  | [], key, val => [(key, val)]
  | (k, v) :: rest, key, val =>
      if k = key then (k, val) :: rest else (k, v) :: setKey rest key val

/-- Object.assign(target, source): assign every enumerable own property
of the source, left to right, onto the target. -/
def objAssign (target : Manifest) (source : List (String × JVal)) : Manifest :=
  source.foldl (fun m kv => setKey m kv.1 kv.2) target

/-- The answers object returned by the npmInit inquirer.prompt call
(src/unnamed/part_000 lines 78-119): exactly six string fields. -/
structure NpmInitAnswers where
  name : String
  description : String
  version : String
  author : String
  license : String
  main : String

/-- The six own properties of the npmInitAnswers object, in prompt
order, as assigned by Object.assign (line 126). -/
def answerPairs (a : NpmInitAnswers) : List (String × JVal) :=
  [("name", JVal.str a.name),
   ("description", JVal.str a.description),
   ("version", JVal.str a.version),
   ("author", JVal.str a.author),
   ("license", JVal.str a.license),
   ("main", JVal.str a.main)]

/-- The kind of an inquirer prompt used by the program. -/
inductive PromptType where
  | input
  | select
  | confirm
  deriving DecidableEq

/-- One inquirer prompt descriptor: type, name, message, default,
choices (empty unless a select prompt), validate (constantly true when
the source gives no validator). -/
structure Prompt where
  ptype : PromptType
  pname : String
  message : String
  defaultAns : String
  choices : List String
  validate : String → Bool

/-- The six metadata prompts of the npmInit inquirer.prompt call, in
source order (src/unnamed/part_000 lines 78-119).  dirBase is
path.basename(targetDir), the base name of the target directory. -/
def npmInitPrompts (dirBase : String) : List Prompt :=
  [ { ptype := PromptType.input, pname := "name", message := "package name:",
      defaultAns := dirBase, choices := [],
      validate := fun input => decide (0 < input.length) },
    { ptype := PromptType.input, pname := "description", message := "description:",
      defaultAns := "Boilerplate for JavaScript backend application",
      choices := [], validate := fun _ => true },
    { ptype := PromptType.input, pname := "version", message := "version:",
      defaultAns := "1.0.0", choices := [], validate := fun _ => true },
    { ptype := PromptType.input, pname := "author", message := "author:",
      defaultAns := "", choices := [], validate := fun _ => true },
    { ptype := PromptType.select, pname := "license", message := "license:",
      defaultAns := "ISC", choices := ["ISC", "MIT", "UNLICENSED"],
      validate := fun _ => true },
    { ptype := PromptType.input, pname := "main", message := "entry point:",
      defaultAns := "index.js", choices := [], validate := fun _ => true } ]

/-- Whether a prompt accepts a given answer string: an input prompt
consults its validator; a select (list) prompt only ever yields one of
its choices; a confirm prompt is boolean and modelled separately. -/
def promptAccepts (p : Prompt) (ans : String) : Bool :=
  match p.ptype with
  | PromptType.input => p.validate ans
  | PromptType.select => p.choices.contains ans
  | PromptType.confirm => true

/-- The six answers in prompt order. -/
def answersList (a : NpmInitAnswers) : List String :=
  [a.name, a.description, a.version, a.author, a.license, a.main]

/-- Whether the six metadata prompts accept a given answer set: each
answer passes its prompt. -/
def acceptsAnswers (dirBase : String) (a : NpmInitAnswers) : Bool :=
  ((npmInitPrompts dirBase).zip (answersList a)).all
    fun pa => promptAccepts pa.1 pa.2

/-- The overwrite confirmation prompt (lines 33-40): default is false. -/
def overwritePrompt (projectName : String) : Prompt :=
  { ptype := PromptType.confirm, pname := "overwrite",
    message := "Directory \"" ++ projectName ++ "\" already exists. Overwrite?",
    defaultAns := "false", choices := [], validate := fun _ => true }

/-- The dependency-install confirmation prompt (lines 134-141):
default is true. -/
def installDepsPrompt : Prompt :=
  { ptype := PromptType.confirm, pname := "installDeps",
    message := "Install npm dependencies (npm install)?",
    defaultAns := "true", choices := [], validate := fun _ => true }

/-- Side effects the run can attempt, in program order: removing the
pre-existing target directory, copying the boilerplate, changing the
working directory, writing package.json, spawning npm install, and
spawning git init. -/
inductive Effect where
  | removeDir
  | copyBoilerplate
  | chdir
  | writeManifest
  | npmInstall
  | gitInit
  deriving DecidableEq

/-- The user-facing messages the program prints (console.log / spinner
succeed / spinner fail lines), abstracted from their chalk styling. -/
inductive Msg where
  | creatingProject (n : String)
  | removedExisting
  | removeFailed
  | aborting
  | boilerplateCopied
  | copyFailed
  | metadataBanner
  | packageJsonUpdated
  | depsInstalled
  | installFailed
  | gitInitialized
  | gitInitFailed
  | successBanner (n : String)
  deriving DecidableEq

/-- The next-step hints printed in the final summary
(lines 169-175). -/
inductive Hint where
  | cdProject (n : String)
  | npmInstall
  | runDev
  | configureEnv
  deriving DecidableEq

/-- How the process ends: user-directed abort (exit 0), remove or copy
failure (process.exit(1)), an uncaught rejection from fs.readJson or
fs.writeJson (no try/catch around lines 123 and 130), or normal
completion carrying the written manifest and the summary hints. -/
inductive Outcome where
  | abortedDecline
  | removeFailed
  | copyFailed
  | manifestReadCrash
  | manifestWriteCrash
  | completed (manifest : Manifest) (hints : List Hint)

/-- The observable result of one run. -/
structure RunResult where
  outcome : Outcome
  exitCode : Nat
  effects : List Effect
  msgs : List Msg

/-- The environment of one run: the project name, whether the target
directory already exists, the operator answers to every prompt, the
manifest fs.readJson finds (none when the read fails), and the
success/failure of each external operation. -/
structure Env where
  projectName : String
  dirExists : Bool
  overwrite : Bool
  removeOk : Bool
  copyOk : Bool
  answers : NpmInitAnswers
  pkgJson : Option Manifest
  writeOk : Bool
  installDeps : Bool
  installOk : Bool
  gitOk : Bool

/-- The next-step hints of the final summary (lines 169-175): cd into
the project, npm install only when dependency installation was
declined, the dev/start command, and the .env reminder. -/
def summaryHints (projectName : String) (installDeps : Bool) : List Hint :=
  [Hint.cdProject projectName]
    ++ (if installDeps then [] else [Hint.npmInstall])
    ++ [Hint.runDev, Hint.configureEnv]

/-- The run from the boilerplate copy onward (lines 57-176), given the
messages and effects accumulated by the existence check. -/
def runFromCopy (e : Env) (msgs0 : List Msg) (effs0 : List Effect) : RunResult :=
  let effs1 := effs0 ++ [Effect.copyBoilerplate]
  if e.copyOk then
    let msgs1 := msgs0 ++ [Msg.boilerplateCopied, Msg.metadataBanner]
    let effs2 := effs1 ++ [Effect.chdir]
    match e.pkgJson with
    | none =>
        { outcome := Outcome.manifestReadCrash, exitCode := 1,
          effects := effs2, msgs := msgs1 }
    | some pkg =>
        let merged := objAssign pkg (answerPairs e.answers)
        let effs3 := effs2 ++ [Effect.writeManifest]
        if e.writeOk then
          let msgs2 := msgs1 ++ [Msg.packageJsonUpdated]
          let effs4 := if e.installDeps then effs3 ++ [Effect.npmInstall] else effs3
          let msgs3 :=
            if e.installDeps then
              msgs2 ++ [if e.installOk then Msg.depsInstalled else Msg.installFailed]
            else msgs2
          let effs5 := effs4 ++ [Effect.gitInit]
          let msgs4 := msgs3 ++ [if e.gitOk then Msg.gitInitialized else Msg.gitInitFailed]
          let msgs5 := msgs4 ++ [Msg.successBanner e.projectName]
          { outcome := Outcome.completed merged (summaryHints e.projectName e.installDeps),
            exitCode := 0, effects := effs5, msgs := msgs5 }
        else
          { outcome := Outcome.manifestWriteCrash, exitCode := 1,
            effects := effs3, msgs := msgs1 }
  else
    { outcome := Outcome.copyFailed, exitCode := 1,
      effects := effs1, msgs := msgs0 ++ [Msg.copyFailed] }

/-- One whole run of the CLI action (lines 24-177): existence check
with overwrite confirmation, then the copy-onward tail. -/
def run (e : Env) : RunResult :=
  let msgs0 := [Msg.creatingProject e.projectName]
  if e.dirExists then
    if e.overwrite then
      if e.removeOk then
        runFromCopy e (msgs0 ++ [Msg.removedExisting]) [Effect.removeDir]
      else
        { outcome := Outcome.removeFailed, exitCode := 1,
          effects := [Effect.removeDir], msgs := msgs0 ++ [Msg.removeFailed] }
    else
      { outcome := Outcome.abortedDecline, exitCode := 0,
        effects := [], msgs := msgs0 ++ [Msg.aborting] }
  else
    runFromCopy e msgs0 []

/-! ### Helper lemmas about the manifest merge and the run function -/

/-- The keys Object.assign writes into the manifest. -/
def mergedKeys : List String :=
  ["name", "description", "version", "author", "license", "main"]

theorem lookupKey_setKey (m : Manifest) (key k : String) (v : JVal) :
    lookupKey (setKey m key v) k = if key = k then some v else lookupKey m k := by
  induction m with
  | nil => simp [setKey, lookupKey]
  | cons hd tl ih =>
      obtain ⟨k1, v1⟩ := hd
      by_cases h1 : k1 = key
      · subst h1
        by_cases h2 : k1 = k <;> simp [setKey, lookupKey, h2]
      · by_cases h2 : k1 = k
        · subst h2
          have hks : ¬(key = k1) := fun h => h1 h.symm
          simp [setKey, lookupKey, h1, hks]
        · simp [setKey, lookupKey, h1, h2, ih]

theorem lookupKey_objAssign_name (pkg : Manifest) (a : NpmInitAnswers) :
    lookupKey (objAssign pkg (answerPairs a)) "name" = some (JVal.str a.name) := by
  simp [objAssign, answerPairs, List.foldl, lookupKey_setKey]

theorem lookupKey_objAssign_description (pkg : Manifest) (a : NpmInitAnswers) :
    lookupKey (objAssign pkg (answerPairs a)) "description"
      = some (JVal.str a.description) := by
  simp [objAssign, answerPairs, List.foldl, lookupKey_setKey]

theorem lookupKey_objAssign_version (pkg : Manifest) (a : NpmInitAnswers) :
    lookupKey (objAssign pkg (answerPairs a)) "version" = some (JVal.str a.version) := by
  simp [objAssign, answerPairs, List.foldl, lookupKey_setKey]

theorem lookupKey_objAssign_author (pkg : Manifest) (a : NpmInitAnswers) :
    lookupKey (objAssign pkg (answerPairs a)) "author" = some (JVal.str a.author) := by
  simp [objAssign, answerPairs, List.foldl, lookupKey_setKey]

theorem lookupKey_objAssign_license (pkg : Manifest) (a : NpmInitAnswers) :
    lookupKey (objAssign pkg (answerPairs a)) "license" = some (JVal.str a.license) := by
  simp [objAssign, answerPairs, List.foldl, lookupKey_setKey]

theorem lookupKey_objAssign_main (pkg : Manifest) (a : NpmInitAnswers) :
    lookupKey (objAssign pkg (answerPairs a)) "main" = some (JVal.str a.main) := by
  simp [objAssign, answerPairs, List.foldl, lookupKey_setKey]

theorem lookupKey_objAssign_frame (pkg : Manifest) (a : NpmInitAnswers)
    (k : String) (hk : k ∉ mergedKeys) :
    lookupKey (objAssign pkg (answerPairs a)) k = lookupKey pkg k := by
  simp [mergedKeys] at hk
  obtain ⟨h1, h2, h3, h4, h5, h6⟩ := hk
  simp [objAssign, answerPairs, List.foldl, lookupKey_setKey,
    Ne.symm h1, Ne.symm h2, Ne.symm h3, Ne.symm h4, Ne.symm h5, Ne.symm h6]

/-- Inversion: a run that ends in the completed outcome took the happy
path, and the written manifest is exactly the Object.assign merge of
the copied manifest with the prompt answers. -/
theorem run_completed_inv (e : Env) (m : Manifest) (hs : List Hint)
    (h : (run e).outcome = Outcome.completed m hs) :
    ∃ pkg, e.pkgJson = some pkg
      ∧ m = objAssign pkg (answerPairs e.answers)
      ∧ hs = summaryHints e.projectName e.installDeps
      ∧ (run e).exitCode = 0
      ∧ e.copyOk = true ∧ e.writeOk = true
      ∧ (e.dirExists = false ∨ (e.overwrite = true ∧ e.removeOk = true)) := by
  unfold run runFromCopy at h ⊢
  by_cases hd : e.dirExists <;> by_cases ho : e.overwrite <;>
    by_cases hr : e.removeOk <;> by_cases hc : e.copyOk <;>
    cases hpkg : e.pkgJson <;> by_cases hw : e.writeOk <;>
    simp_all

/-! ### Concrete environments used to witness the theorems -/

/-- The all-defaults answer set for the end-to-end demo scenario. -/
def demoAnswers : NpmInitAnswers :=
  { name := "demo",
    description := "Boilerplate for JavaScript backend application",
    version := "1.0.0", author := "", license := "ISC", main := "index.js" }

/-- A manifest as the copied boilerplate could provide it: some of the
six merged keys plus unrelated keys, one of them an object. -/
def demoPkg : Manifest :=
  [("name", JVal.str "boilerplate"),
   ("version", JVal.str "0.0.1"),
   ("scripts", JVal.obj [("dev", JVal.str "nodemon src/index.js")]),
   ("type", JVal.str "module")]

/-- A fresh-directory run in which every operation succeeds and the
operator declines dependency installation. -/
def envHappy : Env :=
  { projectName := "demo", dirExists := false, overwrite := false,
    removeOk := true, copyOk := true, answers := demoAnswers,
    pkgJson := some demoPkg, writeOk := true,
    installDeps := false, installOk := true, gitOk := true }

/-- The target directory exists and the operator declines overwrite. -/
def envDecline : Env :=
  { envHappy with dirExists := true, overwrite := false }

/-- The operator accepts overwrite but removing the directory fails. -/
def envRemoveFail : Env :=
  { envHappy with dirExists := true, overwrite := true, removeOk := false }

/-- Copying the boilerplate fails. -/
def envCopyFail : Env :=
  { envHappy with copyOk := false }

/-- Dependency installation is accepted but the npm subprocess fails. -/
def envInstallFail : Env :=
  { envHappy with installDeps := true, installOk := false }

/-- Reading the copied package.json fails (fs.readJson rejects). -/
def envReadFail : Env :=
  { envHappy with pkgJson := none }

/-- Writing the merged package.json fails (fs.writeJson rejects). -/
def envWriteFail : Env :=
  { envHappy with writeOk := false }

/-- The git init subprocess fails. -/
def envGitFail : Env :=
  { envHappy with gitOk := false }

/-- The merged manifest of the demo scenario. -/
def demoMerged : Manifest := objAssign demoPkg (answerPairs demoAnswers)

/-! ### Claim theorems -/

/-- C1: after a successful run, the six manifest fields name,
description, version, author, license and main of the written
package.json exactly equal the prompt answers (defaults included, since
an accepted default is the answer), for every answer set the prompts
accept. -/
theorem c1_manifest_fields_equal_answers (e : Env) (m : Manifest) (hs : List Hint)
    (_hacc : acceptsAnswers e.projectName e.answers = true)
    (hrun : (run e).outcome = Outcome.completed m hs) :
    lookupKey m "name" = some (JVal.str e.answers.name)
    ∧ lookupKey m "description" = some (JVal.str e.answers.description)
    ∧ lookupKey m "version" = some (JVal.str e.answers.version)
    ∧ lookupKey m "author" = some (JVal.str e.answers.author)
    ∧ lookupKey m "license" = some (JVal.str e.answers.license)
    ∧ lookupKey m "main" = some (JVal.str e.answers.main) := by
  obtain ⟨pkg, _, hm, _⟩ := run_completed_inv e m hs hrun
  subst hm
  exact ⟨lookupKey_objAssign_name _ _, lookupKey_objAssign_description _ _,
    lookupKey_objAssign_version _ _, lookupKey_objAssign_author _ _,
    lookupKey_objAssign_license _ _, lookupKey_objAssign_main _ _⟩

/-- Witness for C1 at the concrete demo environment. -/
theorem c1_witness :
    lookupKey demoMerged "name" = some (JVal.str demoAnswers.name)
    ∧ lookupKey demoMerged "description" = some (JVal.str demoAnswers.description)
    ∧ lookupKey demoMerged "version" = some (JVal.str demoAnswers.version)
    ∧ lookupKey demoMerged "author" = some (JVal.str demoAnswers.author)
    ∧ lookupKey demoMerged "license" = some (JVal.str demoAnswers.license)
    ∧ lookupKey demoMerged "main" = some (JVal.str demoAnswers.main) :=
  c1_manifest_fields_equal_answers envHappy demoMerged
    (summaryHints "demo" false) rfl rfl

/-- C2: the manifest merge is a shallow merge in which the six
collected fields win on key collision and every pre-existing field
with a different key survives unchanged in the written manifest, for
every manifest the copied boilerplate provides. -/
theorem c2_shallow_merge_frame (e : Env) (pkg m : Manifest) (hs : List Hint)
    (hpkg : e.pkgJson = some pkg)
    (hrun : (run e).outcome = Outcome.completed m hs) :
    (∀ k, k ∉ mergedKeys → lookupKey m k = lookupKey pkg k)
    ∧ (∀ k, k ∈ mergedKeys → ∃ v, v ∈ answersList e.answers
        ∧ lookupKey m k = some (JVal.str v)) := by
  obtain ⟨pkg2, hpkg2, hm, _⟩ := run_completed_inv e m hs hrun
  rw [hpkg] at hpkg2
  obtain rfl : pkg = pkg2 := by injection hpkg2
  subst hm
  constructor
  · exact fun k hk => lookupKey_objAssign_frame _ _ k hk
  · intro k hk
    simp only [mergedKeys, List.mem_cons, List.not_mem_nil, or_false] at hk
    rcases hk with rfl | rfl | rfl | rfl | rfl | rfl
    · exact ⟨e.answers.name, by simp [answersList], lookupKey_objAssign_name _ _⟩
    · exact ⟨e.answers.description, by simp [answersList],
        lookupKey_objAssign_description _ _⟩
    · exact ⟨e.answers.version, by simp [answersList], lookupKey_objAssign_version _ _⟩
    · exact ⟨e.answers.author, by simp [answersList], lookupKey_objAssign_author _ _⟩
    · exact ⟨e.answers.license, by simp [answersList], lookupKey_objAssign_license _ _⟩
    · exact ⟨e.answers.main, by simp [answersList], lookupKey_objAssign_main _ _⟩

/-- Witness for C2 at the concrete demo environment: the unrelated
keys scripts and type survive the merge, and a collided key holds an
answer. -/
theorem c2_witness :
    lookupKey demoMerged "scripts" = lookupKey demoPkg "scripts"
    ∧ lookupKey demoMerged "type" = lookupKey demoPkg "type"
    ∧ (∃ v, v ∈ answersList demoAnswers
        ∧ lookupKey demoMerged "version" = some (JVal.str v)) :=
  ⟨(c2_shallow_merge_frame envHappy demoPkg demoMerged
      (summaryHints "demo" false) rfl rfl).1 "scripts" (by decide),
   (c2_shallow_merge_frame envHappy demoPkg demoMerged
      (summaryHints "demo" false) rfl rfl).1 "type" (by decide),
   (c2_shallow_merge_frame envHappy demoPkg demoMerged
      (summaryHints "demo" false) rfl rfl).2 "version" (by decide)⟩

/-- C3: every run that writes the manifest writes a license drawn from
the enumerated choices ISC, MIT, UNLICENSED of the list prompt, whose
default is the first choice; an out-of-set license is never written. -/
theorem c3_license_in_allowed_set (e : Env) (m : Manifest) (hs : List Hint)
    (hacc : acceptsAnswers e.projectName e.answers = true)
    (hrun : (run e).outcome = Outcome.completed m hs) :
    lookupKey m "license" = some (JVal.str e.answers.license)
    ∧ e.answers.license ∈ ["ISC", "MIT", "UNLICENSED"]
    ∧ (∃ p, (npmInitPrompts e.projectName)[4]? = some p
        ∧ p.ptype = PromptType.select
        ∧ p.choices = ["ISC", "MIT", "UNLICENSED"]
        ∧ p.choices.head? = some p.defaultAns) := by
  obtain ⟨pkg, _, hm, _⟩ := run_completed_inv e m hs hrun
  subst hm
  refine ⟨lookupKey_objAssign_license _ _, ?_, ⟨_, rfl, rfl, rfl, rfl⟩⟩
  simp [acceptsAnswers, npmInitPrompts, answersList, promptAccepts] at hacc
  simpa using hacc.2

/-- Witness for C3 at the concrete demo environment. -/
theorem c3_witness :
    lookupKey demoMerged "license" = some (JVal.str demoAnswers.license)
    ∧ demoAnswers.license ∈ ["ISC", "MIT", "UNLICENSED"] :=
  ⟨(c3_license_in_allowed_set envHappy demoMerged
      (summaryHints "demo" false) rfl rfl).1,
   (c3_license_in_allowed_set envHappy demoMerged
      (summaryHints "demo" false) rfl rfl).2.1⟩

/-- C4: the exit code is 0 on completion and on declined overwrite,
non-zero when removing the pre-existing directory fails and when the
boilerplate copy fails, and a non-zero exit of the install or git
subprocess never changes the exit code. -/
theorem c4_exit_code_policy (e : Env) :
    (e.dirExists = true → e.overwrite = false →
        (run e).outcome = Outcome.abortedDecline ∧ (run e).exitCode = 0)
    ∧ (∀ m hs, (run e).outcome = Outcome.completed m hs → (run e).exitCode = 0)
    ∧ (e.dirExists = true → e.overwrite = true → e.removeOk = false →
        (run e).outcome = Outcome.removeFailed ∧ (run e).exitCode ≠ 0)
    ∧ ((e.dirExists = false ∨ (e.overwrite = true ∧ e.removeOk = true)) →
        e.copyOk = false →
        (run e).outcome = Outcome.copyFailed ∧ (run e).exitCode ≠ 0)
    ∧ (∀ i g, (run { e with installOk := i, gitOk := g }).exitCode
        = (run e).exitCode) := by
  refine ⟨?_, ?_, ?_, ?_, ?_⟩
  · intro hd ho; simp [run, hd, ho]
  · intro m hs h
    obtain ⟨pkg, _, _, _, hexit, _⟩ := run_completed_inv e m hs h
    exact hexit
  · intro hd ho hr; simp [run, hd, ho, hr]
  · rintro (hd | ⟨ho, hr⟩) hc <;> by_cases hd2 : e.dirExists <;>
      simp_all [run, runFromCopy]
  · intro i g
    by_cases hd : e.dirExists <;> by_cases ho : e.overwrite <;>
      by_cases hr : e.removeOk <;> by_cases hc : e.copyOk <;>
      cases hpkg : e.pkgJson <;> by_cases hw : e.writeOk <;>
      simp_all [run, runFromCopy]

/-- Witness for C4 at concrete environments covering each branch. -/
theorem c4_witness :
    ((run envDecline).outcome = Outcome.abortedDecline
      ∧ (run envDecline).exitCode = 0)
    ∧ (run envHappy).exitCode = 0
    ∧ ((run envRemoveFail).outcome = Outcome.removeFailed
      ∧ (run envRemoveFail).exitCode ≠ 0)
    ∧ ((run envCopyFail).outcome = Outcome.copyFailed
      ∧ (run envCopyFail).exitCode ≠ 0)
    ∧ (run { envHappy with installOk := false, gitOk := false }).exitCode
      = (run envHappy).exitCode :=
  ⟨(c4_exit_code_policy envDecline).1 rfl rfl,
   (c4_exit_code_policy envHappy).2.1 demoMerged (summaryHints "demo" false) rfl,
   (c4_exit_code_policy envRemoveFail).2.2.1 rfl rfl rfl,
   (c4_exit_code_policy envCopyFail).2.2.2.1 (Or.inl rfl) rfl,
   (c4_exit_code_policy envHappy).2.2.2.2 false false⟩

/-- C5: declining the overwrite confirmation of an existing target
directory (a confirm prompt whose default is no) terminates with exit
status 0 after an informational message, performing no side effect and
writing no manifest. -/
theorem c5_decline_overwrite_aborts (e : Env)
    (hd : e.dirExists = true) (ho : e.overwrite = false) :
    (run e).outcome = Outcome.abortedDecline
    ∧ (run e).exitCode = 0
    ∧ (run e).effects = []
    ∧ Msg.aborting ∈ (run e).msgs
    ∧ Effect.writeManifest ∉ (run e).effects
    ∧ (overwritePrompt e.projectName).defaultAns = "false" := by
  simp [run, hd, ho, overwritePrompt]

/-- Witness for C5 at the concrete declined-overwrite environment. -/
theorem c5_witness :
    (run envDecline).outcome = Outcome.abortedDecline
    ∧ (run envDecline).exitCode = 0
    ∧ (run envDecline).effects = []
    ∧ Msg.aborting ∈ (run envDecline).msgs
    ∧ Effect.writeManifest ∉ (run envDecline).effects
    ∧ (overwritePrompt envDecline.projectName).defaultAns = "false" :=
  c5_decline_overwrite_aborts envDecline rfl rfl

/-- C6: when the dependency-install subprocess fails, the failure is
reported but the run does not abort: git init is still attempted, the
completion summary is still printed, and the run still completes with
exit code 0. -/
theorem c6_install_failure_nonfatal (e : Env) (pkg : Manifest)
    (hpath : e.dirExists = false ∨ (e.overwrite = true ∧ e.removeOk = true))
    (hc : e.copyOk = true) (hpkg : e.pkgJson = some pkg) (hw : e.writeOk = true)
    (hi : e.installDeps = true) (hf : e.installOk = false) :
    Msg.installFailed ∈ (run e).msgs
    ∧ Effect.gitInit ∈ (run e).effects
    ∧ Msg.successBanner e.projectName ∈ (run e).msgs
    ∧ (run e).exitCode = 0
    ∧ (run e).outcome
        = Outcome.completed (objAssign pkg (answerPairs e.answers))
            (summaryHints e.projectName e.installDeps) := by
  rcases hpath with hd | ⟨ho, hr⟩ <;> by_cases hd2 : e.dirExists <;>
    simp_all [run, runFromCopy]

/-- Witness for C6 at the concrete failed-install environment. -/
theorem c6_witness :
    Msg.installFailed ∈ (run envInstallFail).msgs
    ∧ Effect.gitInit ∈ (run envInstallFail).effects
    ∧ Msg.successBanner envInstallFail.projectName ∈ (run envInstallFail).msgs
    ∧ (run envInstallFail).exitCode = 0
    ∧ (run envInstallFail).outcome
        = Outcome.completed (objAssign demoPkg (answerPairs demoAnswers))
            (summaryHints envInstallFail.projectName envInstallFail.installDeps) :=
  c6_install_failure_nonfatal envInstallFail demoPkg (Or.inl rfl) rfl rfl rfl rfl rfl

/-- C7: the six metadata prompts occur in this order with these
defaults and validation: name defaults to the target directory base
name and rejects empty input, description has a default text, version
defaults to 1.0.0, author defaults to empty, license is a single
choice defaulting to the first option, entry point defaults to
index.js. -/
theorem c7_metadata_prompts (d : String) :
    (npmInitPrompts d).map Prompt.pname
      = ["name", "description", "version", "author", "license", "main"]
    ∧ (npmInitPrompts d).map Prompt.defaultAns
      = [d, "Boilerplate for JavaScript backend application",
         "1.0.0", "", "ISC", "index.js"]
    ∧ (∃ p, (npmInitPrompts d)[0]? = some p ∧ p.validate "" = false
        ∧ ∀ s : String, 0 < s.length → p.validate s = true)
    ∧ (∃ p, (npmInitPrompts d)[4]? = some p ∧ p.ptype = PromptType.select
        ∧ p.choices = ["ISC", "MIT", "UNLICENSED"]
        ∧ p.choices.head? = some p.defaultAns)
    ∧ (npmInitPrompts d).map Prompt.message
      = ["package name:", "description:", "version:", "author:",
         "license:", "entry point:"] := by
  refine ⟨rfl, rfl, ⟨_, rfl, rfl, ?_⟩, ⟨_, rfl, rfl, rfl, rfl⟩, rfl⟩
  intro s hs
  exact decide_eq_true hs

/-- Witness for C7 at a concrete directory base name and concrete
validated inputs. -/
theorem c7_witness :
    (npmInitPrompts "demo").map Prompt.defaultAns
      = ["demo", "Boilerplate for JavaScript backend application",
         "1.0.0", "", "ISC", "index.js"]
    ∧ (∃ p, (npmInitPrompts "demo")[0]? = some p ∧ p.validate "" = false
        ∧ p.validate "demo" = true) := by
  obtain ⟨_, h2, ⟨p, hp, hv0, hv⟩, _, _⟩ := c7_metadata_prompts "demo"
  exact ⟨h2, ⟨p, hp, hv0, hv "demo" (by decide)⟩⟩

/-- C9: only the package-name prompt validates its input (rejecting
the empty string); the description, version, author and entry-point
prompts accept any string, the empty string included, and every answer
is merged verbatim into the manifest. -/
theorem c9_only_name_validated (d : String) (a : NpmInitAnswers) (pkg : Manifest) :
    (∃ p, (npmInitPrompts d)[0]? = some p ∧ p.validate "" = false)
    ∧ (∀ i, i ∈ [1, 2, 3, 5] → ∀ s : String,
        ∃ p, (npmInitPrompts d)[i]? = some p
          ∧ p.ptype = PromptType.input ∧ p.validate s = true)
    ∧ lookupKey (objAssign pkg (answerPairs a)) "description"
        = some (JVal.str a.description)
    ∧ lookupKey (objAssign pkg (answerPairs a)) "version"
        = some (JVal.str a.version)
    ∧ lookupKey (objAssign pkg (answerPairs a)) "author"
        = some (JVal.str a.author)
    ∧ lookupKey (objAssign pkg (answerPairs a)) "main"
        = some (JVal.str a.main) := by
  refine ⟨⟨_, rfl, rfl⟩, ?_, lookupKey_objAssign_description _ _,
    lookupKey_objAssign_version _ _, lookupKey_objAssign_author _ _,
    lookupKey_objAssign_main _ _⟩
  intro i hi s
  fin_cases hi <;> exact ⟨_, rfl, rfl, rfl⟩

/-- Witness for C9 with empty answers for all unvalidated fields. -/
theorem c9_witness :
    (∃ p, (npmInitPrompts "demo")[0]? = some p ∧ p.validate "" = false)
    ∧ (∃ p, (npmInitPrompts "demo")[1]? = some p
        ∧ p.ptype = PromptType.input ∧ p.validate "" = true)
    ∧ lookupKey (objAssign demoPkg (answerPairs
        { demoAnswers with description := "", version := "", author := "", main := "" }))
        "version" = some (JVal.str "") :=
  ⟨(c9_only_name_validated "demo" demoAnswers demoPkg).1,
   (c9_only_name_validated "demo" demoAnswers demoPkg).2.1 1 (by decide) "",
   (c9_only_name_validated "demo"
      { demoAnswers with description := "", version := "", author := "", main := "" }
      demoPkg).2.2.2.1⟩

/-- C10: the npm install next-step hint appears in the summary exactly
when the operator declined dependency installation; in particular an
accepted-but-failed installation prints no hint. -/
theorem c10_install_hint_iff_declined (e : Env) (m : Manifest) (hs : List Hint)
    (hrun : (run e).outcome = Outcome.completed m hs) :
    (Hint.npmInstall ∈ hs ↔ e.installDeps = false)
    ∧ (e.installDeps = true → Hint.npmInstall ∉ hs) := by
  obtain ⟨pkg, _, _, hhs, _⟩ := run_completed_inv e m hs hrun
  subst hhs
  constructor
  · by_cases hi : e.installDeps <;> simp [summaryHints, hi]
  · intro hi; simp [summaryHints, hi]

/-- Witness for C10: the hint is absent when installation was accepted
but failed, and present when installation was declined. -/
theorem c10_witness :
    Hint.npmInstall ∉ summaryHints envInstallFail.projectName envInstallFail.installDeps
    ∧ (Hint.npmInstall ∈ summaryHints envHappy.projectName envHappy.installDeps
        ↔ envHappy.installDeps = false) :=
  ⟨(c10_install_hint_iff_declined envInstallFail
      (objAssign demoPkg (answerPairs demoAnswers))
      (summaryHints envInstallFail.projectName envInstallFail.installDeps) rfl).2 rfl,
   (c10_install_hint_iff_declined envHappy demoMerged
      (summaryHints envHappy.projectName envHappy.installDeps) rfl).1⟩

/-- Whether the run reaches the boilerplate-copy step: the target
directory is fresh, or the operator accepted overwrite and the removal
succeeded. -/
def reachesCopy (e : Env) : Bool :=
  !e.dirExists || (e.overwrite && e.removeOk)

/-- C8 counterexample: with every earlier step succeeding, a failing
manifest read is not caught at its step: the run ends in an uncaught
crash and no failure message is printed, refuting the claim that no
failure escapes uncaught, including manifest read/write failures. -/
theorem c8_counterexample :
    (run envReadFail).outcome = Outcome.manifestReadCrash
    ∧ (run envReadFail).msgs
      = [Msg.creatingProject "demo", Msg.boilerplateCopied, Msg.metadataBanner]
    ∧ Msg.removeFailed ∉ (run envReadFail).msgs
    ∧ Msg.copyFailed ∉ (run envReadFail).msgs
    ∧ Msg.installFailed ∉ (run envReadFail).msgs
    ∧ Msg.gitInitFailed ∉ (run envReadFail).msgs := by
  refine ⟨rfl, rfl, ?_, ?_, ?_, ?_⟩ <;> decide

/-- C8 amended: every failure except a manifest read or write failure
is caught at the step that produces it and converted into a
user-facing message; a manifest read or write failure during the merge
step escapes uncaught, with no user-facing failure message. -/
theorem c8_failures_caught_except_manifest_merge (e : Env) :
    (e.dirExists = true → e.overwrite = true → e.removeOk = false →
        (run e).outcome = Outcome.removeFailed
        ∧ Msg.removeFailed ∈ (run e).msgs)
    ∧ (reachesCopy e = true → e.copyOk = false →
        (run e).outcome = Outcome.copyFailed ∧ Msg.copyFailed ∈ (run e).msgs)
    ∧ (∀ pkg, reachesCopy e = true → e.copyOk = true → e.pkgJson = some pkg →
        e.writeOk = true → e.installDeps = true → e.installOk = false →
        Msg.installFailed ∈ (run e).msgs)
    ∧ (∀ pkg, reachesCopy e = true → e.copyOk = true → e.pkgJson = some pkg →
        e.writeOk = true → e.gitOk = false → Msg.gitInitFailed ∈ (run e).msgs)
    ∧ (reachesCopy e = true → e.copyOk = true → e.pkgJson = none →
        (run e).outcome = Outcome.manifestReadCrash
        ∧ Msg.removeFailed ∉ (run e).msgs ∧ Msg.copyFailed ∉ (run e).msgs
        ∧ Msg.installFailed ∉ (run e).msgs ∧ Msg.gitInitFailed ∉ (run e).msgs)
    ∧ (∀ pkg, reachesCopy e = true → e.copyOk = true → e.pkgJson = some pkg →
        e.writeOk = false →
        (run e).outcome = Outcome.manifestWriteCrash
        ∧ Msg.removeFailed ∉ (run e).msgs ∧ Msg.copyFailed ∉ (run e).msgs
        ∧ Msg.installFailed ∉ (run e).msgs ∧ Msg.gitInitFailed ∉ (run e).msgs) := by
  have hpath : reachesCopy e = true →
      e.dirExists = false ∨ (e.overwrite = true ∧ e.removeOk = true) := by
    intro h
    simpa [reachesCopy] using h
  refine ⟨?_, ?_, ?_, ?_, ?_, ?_⟩
  · intro hd ho hr; simp [run, hd, ho, hr]
  · intro hrc hc
    rcases hpath hrc with hd | ⟨ho, hr⟩ <;> by_cases hd2 : e.dirExists <;>
      simp_all [run, runFromCopy]
  · intro pkg hrc hc hpkg hw hi hf
    rcases hpath hrc with hd | ⟨ho, hr⟩ <;> by_cases hd2 : e.dirExists <;>
      simp_all [run, runFromCopy]
  · intro pkg hrc hc hpkg hw hg
    rcases hpath hrc with hd | ⟨ho, hr⟩ <;> by_cases hd2 : e.dirExists <;>
      by_cases hi : e.installDeps <;> simp_all [run, runFromCopy]
  · intro hrc hc hpkg
    rcases hpath hrc with hd | ⟨ho, hr⟩ <;> by_cases hd2 : e.dirExists <;>
      simp_all [run, runFromCopy]
  · intro pkg hrc hc hpkg hw
    rcases hpath hrc with hd | ⟨ho, hr⟩ <;> by_cases hd2 : e.dirExists <;>
      simp_all [run, runFromCopy]

/-- Witness for the amended C8 at concrete environments covering each
branch. -/
theorem c8_amended_witness :
    ((run envRemoveFail).outcome = Outcome.removeFailed
      ∧ Msg.removeFailed ∈ (run envRemoveFail).msgs)
    ∧ ((run envCopyFail).outcome = Outcome.copyFailed
      ∧ Msg.copyFailed ∈ (run envCopyFail).msgs)
    ∧ Msg.installFailed ∈ (run envInstallFail).msgs
    ∧ Msg.gitInitFailed ∈ (run envGitFail).msgs
    ∧ (run envReadFail).outcome = Outcome.manifestReadCrash
    ∧ (run envWriteFail).outcome = Outcome.manifestWriteCrash :=
  ⟨(c8_failures_caught_except_manifest_merge envRemoveFail).1 rfl rfl rfl,
   (c8_failures_caught_except_manifest_merge envCopyFail).2.1 rfl rfl,
   (c8_failures_caught_except_manifest_merge envInstallFail).2.2.1
      demoPkg rfl rfl rfl rfl rfl rfl,
   (c8_failures_caught_except_manifest_merge envGitFail).2.2.2.1
      demoPkg rfl rfl rfl rfl rfl,
   ((c8_failures_caught_except_manifest_merge envReadFail).2.2.2.2.1
      rfl rfl rfl).1,
   ((c8_failures_caught_except_manifest_merge envWriteFail).2.2.2.2.2
      demoPkg rfl rfl rfl rfl).1⟩

end CreateJsBackend
